import Mathlib

/-!
Shallow embedding of the reply-serialization core declared in
`src/facade/reply_builder.h` (SinkReplyBuilder, MCReplyBuilder,
RedisReplyBuilder).  The header carries a few inline bodies
(`reset_io_stats`, `GetError`, the `ReplyAggregator` guard, `SetNoreply`);
those are translated directly.  The remaining bodies live in a
translation unit that is not part of the given sources, so they are
modelled from the specification, as marked on each definition.

Byte strings are modelled as Lean `String`s; the sink is modelled as the
trace of scatter-write attempts issued to it, each carrying the byte
buffers of the attempt and whether the sink accepted it.  A sink outcome
is an `Option Nat`: `none` means the write succeeded, `some e` means the
sink failed with error code `e`.
-/

namespace Facade

/-- Two-byte line terminator used by both wire protocols. -/
def crlf : String := "\r\n"

/-- One scatter-write attempt issued to the sink: the byte buffers of the
attempt and whether the sink accepted it. -/
structure WriteAttempt where
  data : List String
  ok : Bool
  deriving DecidableEq

/-- State of a `SinkReplyBuilder`: the sink write trace, the accumulation
buffer `batch_`, the error state `ec_`, the I/O counters, the per-type
error counters `err_count_` (an association list standing for the hash
map) and the mode/reply flags. -/
structure BuilderState where
  writes : List WriteAttempt
  batch : String
  ec : Option Nat
  io_write_cnt : Nat
  io_write_bytes : Nat
  err_count : List (String × Nat)
  should_batch : Bool
  should_aggregate : Bool
  has_replied : Bool
  deriving DecidableEq

/-- `GetError` — inline in the header: returns `ec_`. -/
def GetError (s : BuilderState) : Option Nat := s.ec

/-- `reset_io_stats` — inline in the header: zeroes `io_write_cnt_` and
`io_write_bytes_` and clears `err_count_`; it touches nothing else. -/
def reset_io_stats (s : BuilderState) : BuilderState :=
  { s with io_write_cnt := 0, io_write_bytes := 0, err_count := [] }

/-- Total byte length of a list of buffers. -/
def totalLen (v : List String) : Nat := (v.map String.length).sum

/-- Modelled from the spec: the body of `SinkReplyBuilder::Send` is not in
the header.  Per §4.1, an immediate scatter-write increments the write
counter by 1 and the byte counter by the total length, and on sink
failure records the resulting error state (observable via `GetError`);
the attempt itself is always issued. -/
def Send (v : List String) (oc : Option Nat) (s : BuilderState) : BuilderState :=
  { s with
    writes := s.writes ++ [⟨v, oc.isNone⟩],
    io_write_cnt := s.io_write_cnt + 1,
    io_write_bytes := s.io_write_bytes + totalLen v,
    ec := match oc with
          | none => s.ec
          | some e => some e,
    has_replied := true }

/-- Modelled from the spec: the body of `SinkReplyBuilder::SendRaw` is not
in the header.  Per §4.1/§3, if batching or aggregating is active the
bytes are appended to the accumulation buffer, otherwise an immediate
write is issued to the sink. -/
def SendRaw (msg : String) (oc : Option Nat) (s : BuilderState) : BuilderState :=
  if s.should_batch || s.should_aggregate then
    { s with batch := s.batch ++ msg, has_replied := true }
  else
    Send [msg] oc s

/-- Modelled from the spec: the body of `SinkReplyBuilder::SendRawVec` is
not in the header; it is the scatter variant of `SendRaw`. -/
def SendRawVec (msgs : List String) (oc : Option Nat) (s : BuilderState) : BuilderState :=
  if s.should_batch || s.should_aggregate then
    { s with batch := s.batch ++ String.join msgs, has_replied := true }
  else
    Send msgs oc s

/-- Modelled from the spec: the body of `SinkReplyBuilder::SetBatchMode`
is not in the header.  Per §4.1 it toggles session-level batching and
turning it off does not implicitly flush. -/
def SetBatchMode (b : Bool) (s : BuilderState) : BuilderState :=
  { s with should_batch := b }

/-- Modelled from the spec: the body of `SinkReplyBuilder::FlushBatch` is
not in the header.  Per §4.1, if the accumulation buffer is non-empty it
issues one write of its entire contents and then clears it, regardless of
batch-mode state. -/
def FlushBatch (oc : Option Nat) (s : BuilderState) : BuilderState :=
  if s.batch = "" then s
  else { Send [s.batch] oc s with batch := "" }

/-- Modelled from the spec: the body of `SinkReplyBuilder::StartAggregate`
is not in the header.  Per §4.1 it enables operation-scoped buffering. -/
def StartAggregate (s : BuilderState) : BuilderState :=
  { s with should_aggregate := true }

/-- Modelled from the spec: the body of `SinkReplyBuilder::StopAggregate`
is not in the header.  Per §4.1 it disables operation-scoped buffering
and flushes exactly once. -/
def StopAggregate (oc : Option Nat) (s : BuilderState) : BuilderState :=
  FlushBatch oc { s with should_aggregate := false }

/-- Modelled from the spec: the body of `SinkReplyBuilder::ExpectReply` is
not in the header.  Per §4.1 it arms the one-shot reply flag that the
next send clears. -/
def ExpectReply (s : BuilderState) : BuilderState :=
  { s with has_replied := false }

/-- The `ReplyAggregator` guard — its constructor and destructor are
inline in the header.  `is_nested` starts `true`; the constructor leaves
it `true` (doing nothing) when the builder is already aggregating, and
otherwise starts aggregation and records `is_nested = false`. -/
structure ReplyAggregator where
  is_nested : Bool
  deriving DecidableEq

/-- Constructor of `ReplyAggregator`, inline in the header: if the builder
is already aggregating, do not aggregate again (stay nested); otherwise
call `StartAggregate` and mark the scope as outermost. -/
def ReplyAggregator.enter (s : BuilderState) : ReplyAggregator × BuilderState :=
  if s.should_aggregate then (⟨true⟩, s)
  else (⟨false⟩, StartAggregate s)

/-- Destructor of `ReplyAggregator`, inline in the header: calls
`StopAggregate` only when this scope was not nested. -/
def ReplyAggregator.exit (a : ReplyAggregator) (oc : Option Nat) (s : BuilderState) : BuilderState :=
  if a.is_nested then s else StopAggregate oc s

/-- Increment by one the counter stored under `key` in the error-count
association list, inserting the key at count 1 when absent (the
behaviour of `err_count_[key]++` on the hash map). -/
def incrErr (key : String) : List (String × Nat) → List (String × Nat)
  | [] => [(key, 1)]
  | (k, n) :: rest => if k = key then (k, n + 1) :: rest else (k, n) :: incrErr key rest

/-- Look up the counter stored under `key` (0 when absent). -/
def lookupErr (key : String) : List (String × Nat) → Nat
  | [] => 0
  | (k, n) :: rest => if k = key then n else lookupErr key rest

/-- `SinkReplyBuilder::ResponseValue`, from the header: one key/value
result pair with its optional Memcached version and flags tags. -/
structure ResponseValue where
  key : String
  value : String
  mc_ver : Nat
  mc_flag : Nat
  deriving DecidableEq

/-- `OptResp`, from the header: a per-key result that is either absent or
a `ResponseValue`. -/
abbrev OptResp := Option ResponseValue

/-- Modelled from the spec: resolution of the error-counter key used by
`SendError` — the resolved type, or the message when no type is given. -/
def resolveErrType (msg ty : String) : String :=
  if ty = "" then msg else ty

/-- `MCReplyBuilder`: the Memcached encoder's state is the shared builder
state plus the `noreply_` flag from the header. -/
structure MCReplyBuilder where
  base : BuilderState
  noreply : Bool
  deriving DecidableEq

/-- `MCReplyBuilder::SetNoreply` — inline in the header. -/
def MCReplyBuilder.SetNoreply (b : Bool) (m : MCReplyBuilder) : MCReplyBuilder :=
  { m with noreply := b }

/-- Modelled from the spec: the body of `MCReplyBuilder::SendSimpleString`
is not in the header.  Per §4.3, with `noreply` set every send is a
silent no-op (no buffer population, no write, no statistics update);
otherwise the line plus terminator is sent raw. -/
def MCReplyBuilder.SendSimpleString (str : String) (oc : Option Nat) (m : MCReplyBuilder) :
    MCReplyBuilder :=
  if m.noreply then m
  else { m with base := SendRaw (str ++ crlf) oc m.base }

/-- Modelled from the spec: `MCReplyBuilder::SendStored` emits the fixed
literal STORED line. -/
def MCReplyBuilder.SendStored (oc : Option Nat) (m : MCReplyBuilder) : MCReplyBuilder :=
  MCReplyBuilder.SendSimpleString "STORED" oc m

/-- Modelled from the spec: `MCReplyBuilder::SendSetSkipped` emits the
fixed literal NOT_STORED line. -/
def MCReplyBuilder.SendSetSkipped (oc : Option Nat) (m : MCReplyBuilder) : MCReplyBuilder :=
  MCReplyBuilder.SendSimpleString "NOT_STORED" oc m

/-- Modelled from the spec: `MCReplyBuilder::SendNotFound` emits the fixed
literal NOT_FOUND line. -/
def MCReplyBuilder.SendNotFound (oc : Option Nat) (m : MCReplyBuilder) : MCReplyBuilder :=
  MCReplyBuilder.SendSimpleString "NOT_FOUND" oc m

/-- Modelled from the spec: `MCReplyBuilder::SendLong` emits the decimal
text of the value as a line. -/
def MCReplyBuilder.SendLong (v : Int) (oc : Option Nat) (m : MCReplyBuilder) : MCReplyBuilder :=
  MCReplyBuilder.SendSimpleString (toString v) oc m

/-- Modelled from the spec: the body of `MCReplyBuilder::SendError` is not
in the header.  Per §4.3/§7 it emits the ERROR line and records the error
in the shared counters under the resolved type (or the message when no
type is given); per §4.3 `noreply` suppresses the write and the
statistics update alike. -/
def MCReplyBuilder.SendError (msg ty : String) (oc : Option Nat) (m : MCReplyBuilder) :
    MCReplyBuilder :=
  if m.noreply then m
  else
    { m with
      base := SendRaw ("ERROR" ++ crlf) oc
        { m.base with err_count := incrErr (resolveErrType msg ty) m.base.err_count } }

/-- Modelled from the spec: the body of `MCReplyBuilder::SendClientError`
is not in the header.  Per §4.3 it emits a CLIENT_ERROR line and records
it in the shared counters (keyed by the message, no type being given);
`noreply` suppresses both. -/
def MCReplyBuilder.SendClientError (msg : String) (oc : Option Nat) (m : MCReplyBuilder) :
    MCReplyBuilder :=
  if m.noreply then m
  else
    { m with
      base := SendRaw ("CLIENT_ERROR " ++ msg ++ crlf) oc
        { m.base with err_count := incrErr msg m.base.err_count } }

/-- Modelled from the spec: `MCReplyBuilder::SendProtocolError` reports a
malformed request, which Memcached frames as a client-caused error. -/
def MCReplyBuilder.SendProtocolError (msg : String) (oc : Option Nat) (m : MCReplyBuilder) :
    MCReplyBuilder :=
  MCReplyBuilder.SendClientError msg oc m

/-- Modelled from the spec: the VALUE header line of one present entry —
`VALUE <key> <flags> <bytes-length>`, with the cas version appended only
when a non-zero version was supplied, then the line terminator. -/
def mcValueLine (rv : ResponseValue) : String :=
  "VALUE " ++ rv.key ++ " " ++ toString rv.mc_flag ++ " " ++ toString rv.value.length ++
    (if rv.mc_ver = 0 then "" else " " ++ toString rv.mc_ver) ++ crlf

/-- The full wire chunk of one present entry: its VALUE header line, the
raw bytes, and the line terminator. -/
def mcValueChunk (rv : ResponseValue) : String :=
  mcValueLine rv ++ rv.value ++ crlf

/-- The present entries of an optional-response sequence, in order. -/
def presentValues (arr : List OptResp) : List ResponseValue :=
  arr.filterMap id

/-- Modelled from the spec: the chunks emitted by
`MCReplyBuilder::SendMGetResponse` (body not in the header) — one VALUE
chunk per present entry in input order, absent entries contributing
nothing, terminated by a single END line. -/
def mcMGetChunks (arr : List OptResp) : List String :=
  (presentValues arr).map mcValueChunk ++ ["END" ++ crlf]

/-- Modelled from the spec: `MCReplyBuilder::SendMGetResponse` sends the
chunks above, and like every send on this builder is a silent no-op when
`noreply` is set. -/
def MCReplyBuilder.SendMGetResponse (arr : List OptResp) (oc : Option Nat) (m : MCReplyBuilder) :
    MCReplyBuilder :=
  if m.noreply then m
  else { m with base := (mcMGetChunks arr).foldl (fun b c => SendRaw c oc b) m.base }

/-- `RedisReplyBuilder::CollectionType`, from the header. -/
inductive CollectionType
  | ARRAY
  | SET
  | MAP
  | PUSH
  deriving DecidableEq

/-- `RedisReplyBuilder`: the Redis encoder's state is the shared builder
state plus the `is_resp3_` flag from the header. -/
structure RedisReplyBuilder where
  base : BuilderState
  is_resp3 : Bool
  deriving DecidableEq

/-- `RedisReplyBuilder::SetResp3`, toggling the protocol sub-version. -/
def RedisReplyBuilder.SetResp3 (b : Bool) (r : RedisReplyBuilder) : RedisReplyBuilder :=
  { r with is_resp3 := b }

/-- The RESP3 wire-type marker of each collection kind (§6): array `*`,
set `~`, map `%`, push `>`. -/
def collectionTypeChar : CollectionType → String
  | .ARRAY => "*"
  | .SET => "~"
  | .MAP => "%"
  | .PUSH => ">"

/-- Modelled from the spec: the header bytes written by
`RedisReplyBuilder::StartCollection` (body not in the header).  Per §4.2,
under RESP3 the four kinds keep four distinct wire types; under RESP2
everything becomes a generic array and a map is flattened to interleaved
key/value elements, doubling its declared element count on the wire. -/
def collectionHeader (resp3 : Bool) (len : Nat) (t : CollectionType) : String :=
  if resp3 then collectionTypeChar t ++ toString len ++ crlf
  else "*" ++ toString (if t = CollectionType.MAP then 2 * len else len) ++ crlf

/-- Modelled from the spec: the bulk-string wire form — length-prefixed
byte string (§4.2/§6). -/
def bulkString (s : String) : String :=
  "$" ++ toString s.length ++ crlf ++ s ++ crlf

/-- Modelled from the spec: the null form sent for an absent entry — a
null bulk string under RESP2, the dedicated null sentinel under RESP3. -/
def redisNull (resp3 : Bool) : String :=
  if resp3 then "_" ++ crlf else "$-1" ++ crlf

/-- Modelled from the spec: the chunks emitted by
`RedisReplyBuilder::SendMGetResponse` (body not in the header) — one
collection header declaring the input length, then one chunk per entry in
input order: the null form for an absent entry, a bulk string of the
value for a present one. -/
def redisMGetChunks (resp3 : Bool) (arr : List OptResp) : List String :=
  collectionHeader resp3 arr.length CollectionType.ARRAY ::
    arr.map (fun o =>
      match o with
      | none => redisNull resp3
      | some rv => bulkString rv.value)

/-- Interleave the key/value pairs of a map into a flat element list. -/
def interleave : List (String × String) → List String
  | [] => []
  | (k, v) :: rest => k :: v :: interleave rest

/-- Wire bytes of a whole collection: the `StartCollection` header with
the declared length, followed by the element chunks sent afterwards. -/
def encodeCollection (resp3 : Bool) (t : CollectionType) (declaredLen : Nat)
    (elems : List String) : String :=
  collectionHeader resp3 declaredLen t ++ String.join elems

/-- Wire bytes of a MAP collection of key/value pairs: the map header
declares the pair count and the pairs are sent interleaved. -/
def encodeMapPairs (resp3 : Bool) (pairs : List (String × String)) : String :=
  encodeCollection resp3 CollectionType.MAP pairs.length (interleave pairs)

/-- Modelled from the spec: the double inputs `FormatDouble` must handle —
the five protocol special cases and finite values, the latter carrying
the decimal text the fixed-precision formatter renders for them (general
binary floating point is outside the embedding). -/
inductive DoubleVal
  | zero
  | negZero
  | posInf
  | negInf
  | nan
  | finite (text : String)
  deriving DecidableEq

/-- Modelled from the spec: `RedisReplyBuilder::FormatDouble` (body not in
the header) — a pure, deterministic formatter that special-cases the two
infinities and not-a-number with the protocol-agreed sentinel tokens and
renders the signed zeros as fixed tokens. -/
def FormatDouble : DoubleVal → String
  | .zero => "0"
  | .negZero => "-0"
  | .posInf => "inf"
  | .negInf => "-inf"
  | .nan => "nan"
  | .finite text => text

/-- Modelled from the spec: the wire bytes of
`RedisReplyBuilder::SendDouble` (body not in the header) — RESP3 has a
native double wire type `,`; RESP2 has none, so the double is
down-converted to a bulk string of its formatted text. -/
def sendDoubleBytes (resp3 : Bool) (d : DoubleVal) : String :=
  if resp3 then "," ++ FormatDouble d ++ crlf
  else bulkString (FormatDouble d)

/-- Modelled from the spec: the body of `RedisReplyBuilder::SendError` is
not in the header.  Per §4.2/§7 it renders one line with the error
marker, the type token (a generic token when unspecified) and the
message, and always records the call in the shared counters under the
resolved type (or the message when no type is given). -/
def RedisReplyBuilder.SendError (msg ty : String) (oc : Option Nat) (r : RedisReplyBuilder) :
    RedisReplyBuilder :=
  { r with
    base := SendRaw ("-" ++ (if ty = "" then "ERR" else ty) ++ " " ++ msg ++ crlf) oc
      { r.base with err_count := incrErr (resolveErrType msg ty) r.base.err_count } }

/-- The operations of the shared builder core, each send-style operation
carrying the sink outcome (`none` = success) its write attempt, if any,
would observe. -/
inductive CoreOp
  | sendRaw (msg : String) (oc : Option Nat)
  | sendRawVec (msgs : List String) (oc : Option Nat)
  | flushBatch (oc : Option Nat)
  | setBatchMode (b : Bool)
  | startAggregate
  | stopAggregate (oc : Option Nat)
  | resetIoStats
  | expectReply
  deriving DecidableEq

/-- Run one core operation on the builder state. -/
def runCoreOp : CoreOp → BuilderState → BuilderState
  | .sendRaw msg oc, s => SendRaw msg oc s
  | .sendRawVec msgs oc, s => SendRawVec msgs oc s
  | .flushBatch oc, s => FlushBatch oc s
  | .setBatchMode b, s => SetBatchMode b s
  | .startAggregate, s => StartAggregate s
  | .stopAggregate oc, s => StopAggregate oc s
  | .resetIoStats, s => reset_io_stats s
  | .expectReply, s => ExpectReply s

/-- A sequence of raw sends, in call order, each succeeding. -/
def sendMany (msgs : List String) (s : BuilderState) : BuilderState :=
  msgs.foldl (fun st m => SendRaw m none st) s

/-- The send operations of the Memcached builder, each carrying its
arguments and the sink outcome its write attempt, if any, would
observe. -/
inductive MCOp
  | stored (oc : Option Nat)
  | setSkipped (oc : Option Nat)
  | notFound (oc : Option Nat)
  | long (v : Int) (oc : Option Nat)
  | simpleString (s : String) (oc : Option Nat)
  | clientError (s : String) (oc : Option Nat)
  | protoError (s : String) (oc : Option Nat)
  | mcError (msg ty : String) (oc : Option Nat)
  | mget (arr : List OptResp) (oc : Option Nat)
  deriving DecidableEq

/-- Run one Memcached send operation. -/
def runMCOp : MCOp → MCReplyBuilder → MCReplyBuilder
  | .stored oc, m => MCReplyBuilder.SendStored oc m
  | .setSkipped oc, m => MCReplyBuilder.SendSetSkipped oc m
  | .notFound oc, m => MCReplyBuilder.SendNotFound oc m
  | .long v oc, m => MCReplyBuilder.SendLong v oc m
  | .simpleString s oc, m => MCReplyBuilder.SendSimpleString s oc m
  | .clientError s oc, m => MCReplyBuilder.SendClientError s oc m
  | .protoError s oc, m => MCReplyBuilder.SendProtocolError s oc m
  | .mcError msg ty oc, m => MCReplyBuilder.SendError msg ty oc m
  | .mget arr oc, m => MCReplyBuilder.SendMGetResponse arr oc m

/-- Run a sequence of Memcached send operations, in call order. -/
def runMCOps (ops : List MCOp) (m : MCReplyBuilder) : MCReplyBuilder :=
  ops.foldl (fun acc op => runMCOp op acc) m

/-- A fresh builder state, as right after construction. -/
def initState : BuilderState :=
  { writes := [], batch := "", ec := none, io_write_cnt := 0, io_write_bytes := 0,
    err_count := [], should_batch := false, should_aggregate := false, has_replied := false }

/-- A fresh builder state with batch mode already enabled. -/
def batchState : BuilderState := { initState with should_batch := true }

/-- While batch mode is on, a sequence of raw sends only grows the
accumulation buffer, folding the messages onto it in call order, and the
sink trace is untouched. -/
theorem sendMany_batch (msgs : List String) (s : BuilderState) (h : s.should_batch = true) :
    (sendMany msgs s).writes = s.writes ∧
    (sendMany msgs s).batch = msgs.foldl (fun a b => a ++ b) s.batch := by
  induction msgs generalizing s with
  | nil => exact ⟨rfl, rfl⟩
  | cons m rest ih =>
    have h2 : SendRaw m none s = { s with batch := s.batch ++ m, has_replied := true } := by
      simp [SendRaw, h]
    have h3 := ih { s with batch := s.batch ++ m, has_replied := true } h
    simp only [sendMany, List.foldl] at h3 ⊢
    rw [h2]
    exact h3

/-- Claim C1: while batch mode is enabled, raw sends put no bytes on the
sink; the accumulation buffer then holds exactly the concatenation of the
sent bytes in call order, and `FlushBatch` — whenever the buffer is
non-empty, regardless of the batch-mode flag — issues its entire contents
to the sink in one write and clears it (and is a no-op on an empty
buffer). -/
theorem c1_batch_mode (s : BuilderState) (msgs : List String) (oc : Option Nat)
    (hb : s.should_batch = true) (h0 : s.batch = "") :
    (sendMany msgs s).writes = s.writes ∧
    (sendMany msgs s).batch = String.join msgs ∧
    (∀ t : BuilderState, t.batch ≠ "" →
      (FlushBatch oc t).writes = t.writes ++ [⟨[t.batch], oc.isNone⟩] ∧
      (FlushBatch oc t).batch = "") ∧
    (∀ t : BuilderState, t.batch = "" → FlushBatch oc t = t) := by
  refine ⟨(sendMany_batch msgs s hb).1, ?_, ?_, ?_⟩
  · have h3 := (sendMany_batch msgs s hb).2
    rw [h0] at h3
    simpa [String.join] using h3
  · intro t ht
    exact ⟨by simp [FlushBatch, ht, Send], by simp [FlushBatch, ht]⟩
  · intro t ht
    simp [FlushBatch, ht]

/-- Witness for C1 at a concrete batching state and send sequence. -/
theorem c1_batch_mode_witness :
    (sendMany ["ab", "c"] batchState).writes = batchState.writes ∧
    (sendMany ["ab", "c"] batchState).batch = String.join ["ab", "c"] ∧
    (∀ t : BuilderState, t.batch ≠ "" →
      (FlushBatch none t).writes = t.writes ++ [⟨[t.batch], (none : Option Nat).isNone⟩] ∧
      (FlushBatch none t).batch = "") ∧
    (∀ t : BuilderState, t.batch = "" → FlushBatch none t = t) :=
  c1_batch_mode batchState ["ab", "c"] none rfl rfl

/-- Claim C2: entering an aggregation scope on a builder that is not yet
aggregating marks the scope outermost and activates aggregation; entering
another scope while aggregation is active is a no-op that stays nested;
tearing down the nested scope changes nothing (no sink write, aggregation
still active), while tearing down the outermost scope performs
`StopAggregate`, which flushes the buffered bytes to the sink whenever
the buffer is non-empty. -/
theorem c2_aggregator_nesting (s : BuilderState) (oc : Option Nat)
    (h : s.should_aggregate = false) :
    (ReplyAggregator.enter s).1.is_nested = false ∧
    ((ReplyAggregator.enter s).2).should_aggregate = true ∧
    ReplyAggregator.enter ((ReplyAggregator.enter s).2)
      = (⟨true⟩, (ReplyAggregator.enter s).2) ∧
    (∀ t : BuilderState,
      ReplyAggregator.exit (ReplyAggregator.enter ((ReplyAggregator.enter s).2)).1 oc t = t) ∧
    (∀ t : BuilderState,
      ReplyAggregator.exit (ReplyAggregator.enter s).1 oc t = StopAggregate oc t) ∧
    (∀ t : BuilderState, t.batch ≠ "" →
      (StopAggregate oc t).writes = t.writes ++ [⟨[t.batch], oc.isNone⟩]) := by
  have he : ReplyAggregator.enter s = (⟨false⟩, StartAggregate s) := by
    simp [ReplyAggregator.enter, h]
  have ha : (StartAggregate s).should_aggregate = true := rfl
  refine ⟨by rw [he], by rw [he]; exact ha, ?_, ?_, ?_, ?_⟩
  · rw [he]
    simp [ReplyAggregator.enter, ha]
  · intro t
    rw [he]
    simp [ReplyAggregator.enter, ha, ReplyAggregator.exit]
  · intro t
    rw [he]
    simp [ReplyAggregator.exit]
  · intro t ht
    simp [StopAggregate, FlushBatch, ht, Send]

/-- Witness for C2 at a concrete non-aggregating state. -/
theorem c2_aggregator_nesting_witness :
    (ReplyAggregator.enter initState).1.is_nested = false ∧
    ((ReplyAggregator.enter initState).2).should_aggregate = true ∧
    ReplyAggregator.enter ((ReplyAggregator.enter initState).2)
      = (⟨true⟩, (ReplyAggregator.enter initState).2) ∧
    (∀ t : BuilderState,
      ReplyAggregator.exit
        (ReplyAggregator.enter ((ReplyAggregator.enter initState).2)).1 none t = t) ∧
    (∀ t : BuilderState,
      ReplyAggregator.exit (ReplyAggregator.enter initState).1 none t
        = StopAggregate none t) ∧
    (∀ t : BuilderState, t.batch ≠ "" →
      (StopAggregate none t).writes
        = t.writes ++ [⟨[t.batch], (none : Option Nat).isNone⟩]) :=
  c2_aggregator_nesting initState none rfl

/-- Claim C9: `reset_io_stats` zeroes the write counter and the byte
counter, empties the error counters, and leaves the sink trace — the
bytes already sent — untouched. -/
theorem c9_reset_io_stats (s : BuilderState) :
    (reset_io_stats s).io_write_cnt = 0 ∧
    (reset_io_stats s).io_write_bytes = 0 ∧
    (reset_io_stats s).err_count = [] ∧
    (reset_io_stats s).writes = s.writes :=
  ⟨rfl, rfl, rfl, rfl⟩

/-- Claim C10: `reset_io_stats` leaves the transport error state observed
through `GetError` unchanged, and also the batch flag, the aggregate flag
and the accumulation buffer. -/
theorem c10_reset_io_stats_frame (s : BuilderState) :
    GetError (reset_io_stats s) = GetError s ∧
    (reset_io_stats s).should_batch = s.should_batch ∧
    (reset_io_stats s).should_aggregate = s.should_aggregate ∧
    (reset_io_stats s).batch = s.batch :=
  ⟨rfl, rfl, rfl, rfl⟩

/-- A VALUE chunk never coincides with the END line: its first byte is
`V`, the END line's is `E`. -/
theorem mcValueChunk_ne_end (rv : ResponseValue) : mcValueChunk rv ≠ "END" ++ crlf := by
  intro h
  have h2 := congrArg (fun x : String => x.data.head?) h
  simp only [mcValueChunk, mcValueLine, crlf, String.data_append] at h2
  simp at h2

/-- Claim C3: over an input of N optional responses, the Redis response is
one collection header declaring N followed by exactly N entry chunks in
input order (absent entries as the protocol's null form, present ones as
bulk strings); the Memcached response is the VALUE chunks of the present
entries in input order — hence at most N of them — followed by exactly
one END line, which is last. -/
theorem c3_mget_response (resp3 : Bool) (arr : List OptResp) :
    (redisMGetChunks resp3 arr).head?
      = some (collectionHeader resp3 arr.length CollectionType.ARRAY) ∧
    (redisMGetChunks resp3 arr).tail = arr.map (fun o =>
      match o with
      | none => redisNull resp3
      | some rv => bulkString rv.value) ∧
    ((redisMGetChunks resp3 arr).tail).length = arr.length ∧
    (mcMGetChunks arr).dropLast = (presentValues arr).map mcValueChunk ∧
    (presentValues arr).length ≤ arr.length ∧
    (mcMGetChunks arr).getLast? = some ("END" ++ crlf) ∧
    (mcMGetChunks arr).count ("END" ++ crlf) = 1 := by
  have hz : ((presentValues arr).map mcValueChunk).count ("END" ++ crlf) = 0 := by
    rw [List.count_eq_zero]
    intro hmem
    rcases List.mem_map.mp hmem with ⟨rv, _, hrv⟩
    exact mcValueChunk_ne_end rv hrv
  refine ⟨rfl, rfl, by simp [redisMGetChunks], ?_, ?_, ?_, ?_⟩
  · simp [mcMGetChunks]
  · exact List.length_filterMap_le id arr
  · simp [mcMGetChunks]
  · simp [mcMGetChunks, List.count_append, hz]

/-- Any single Memcached send with `noreply` set leaves the builder — the
sink trace, the buffer and all counters — untouched. -/
theorem runMCOp_noreply (op : MCOp) (m : MCReplyBuilder) (h : m.noreply = true) :
    runMCOp op m = m := by
  cases op <;>
    simp [runMCOp, MCReplyBuilder.SendStored, MCReplyBuilder.SendSetSkipped,
      MCReplyBuilder.SendNotFound, MCReplyBuilder.SendLong, MCReplyBuilder.SendSimpleString,
      MCReplyBuilder.SendClientError, MCReplyBuilder.SendProtocolError,
      MCReplyBuilder.SendError, MCReplyBuilder.SendMGetResponse, h]

/-- Claim C4: with `noreply` set on the Memcached builder, any sequence of
send operations is a complete no-op — no bytes reach the sink or the
buffer, and the I/O and error counters are unchanged. -/
theorem c4_noreply_noop (ops : List MCOp) (m : MCReplyBuilder) (h : m.noreply = true) :
    runMCOps ops m = m := by
  induction ops with
  | nil => rfl
  | cons op rest ih =>
    simp only [runMCOps, List.foldl] at ih ⊢
    rw [runMCOp_noreply op m h]
    exact ih

/-- A Memcached builder with `noreply` set on a fresh state. -/
def mcNoreplyBuilder : MCReplyBuilder := { base := initState, noreply := true }

/-- Witness for C4 at a concrete builder and operation sequence. -/
theorem c4_noreply_noop_witness :
    runMCOps [MCOp.stored none, MCOp.mcError "oom" "" (some 3),
        MCOp.mget [some ⟨"k", "v", 0, 0⟩, none] none, MCOp.long 42 none]
      mcNoreplyBuilder = mcNoreplyBuilder :=
  c4_noreply_noop _ mcNoreplyBuilder rfl

/-- Interleaving K key/value pairs yields 2K elements. -/
theorem interleave_length (pairs : List (String × String)) :
    (interleave pairs).length = 2 * pairs.length := by
  induction pairs with
  | nil => rfl
  | cons p rest ih =>
    obtain ⟨k, v⟩ := p
    simp only [interleave, List.length_cons, ih, List.length]
    omega

/-- Claim C5: under RESP2 a MAP collection of K pairs produces exactly the
wire bytes of a generic ARRAY of 2K elements with the pairs interleaved;
under RESP3 the MAP collection uses the dedicated `%` map wire-type
header. -/
theorem c5_map_collection (pairs : List (String × String)) :
    encodeMapPairs false pairs
      = encodeCollection false CollectionType.ARRAY (2 * pairs.length) (interleave pairs) ∧
    (interleave pairs).length = 2 * pairs.length ∧
    collectionHeader true pairs.length CollectionType.MAP
      = "%" ++ toString pairs.length ++ crlf ∧
    encodeMapPairs true pairs
      = ("%" ++ toString pairs.length ++ crlf) ++ String.join (interleave pairs) := by
  refine ⟨?_, interleave_length pairs, rfl, rfl⟩
  simp [encodeMapPairs, encodeCollection, collectionHeader]

/-- Claim C6: double formatting is a pure function — the same input yields
the same bytes on every call — and each special value maps to its fixed
protocol token; RESP2 down-converts the double to a bulk string, RESP3
uses the native `,` double wire type. -/
theorem c6_double_formatting (d : DoubleVal) :
    FormatDouble DoubleVal.zero = "0" ∧
    FormatDouble DoubleVal.negZero = "-0" ∧
    FormatDouble DoubleVal.posInf = "inf" ∧
    FormatDouble DoubleVal.negInf = "-inf" ∧
    FormatDouble DoubleVal.nan = "nan" ∧
    sendDoubleBytes false d = bulkString (FormatDouble d) ∧
    sendDoubleBytes true d = "," ++ FormatDouble d ++ crlf :=
  ⟨rfl, rfl, rfl, rfl, rfl, rfl, rfl⟩

/-- Incrementing the error counter at a key raises that key's count by
exactly one. -/
theorem lookupErr_incrErr (key : String) (l : List (String × Nat)) :
    lookupErr key (incrErr key l) = lookupErr key l + 1 := by
  induction l with
  | nil => simp [incrErr, lookupErr]
  | cons p rest ih =>
    obtain ⟨k, n⟩ := p
    by_cases hk : k = key
    · simp [incrErr, lookupErr, hk]
    · simp [incrErr, lookupErr, hk, ih]

/-- Raw sends never touch the error counters. -/
theorem SendRaw_err_count (msg : String) (oc : Option Nat) (s : BuilderState) :
    (SendRaw msg oc s).err_count = s.err_count := by
  simp only [SendRaw]
  split <;> rfl

/-- Claim C7 (amended): every `SendError` call on the Redis builder, and
on the Memcached builder when `noreply` is not set, increments the shared
error counter by one at the resolved key — the type, or the message when
no type is given; on the Memcached builder with `noreply` set the
counters are left unchanged. -/
theorem c7_send_error_counts (r : RedisReplyBuilder) (m : MCReplyBuilder)
    (msg ty : String) (oc : Option Nat) (hm : m.noreply = false) :
    lookupErr (resolveErrType msg ty)
        (RedisReplyBuilder.SendError msg ty oc r).base.err_count
      = lookupErr (resolveErrType msg ty) r.base.err_count + 1 ∧
    lookupErr (resolveErrType msg ty)
        (MCReplyBuilder.SendError msg ty oc m).base.err_count
      = lookupErr (resolveErrType msg ty) m.base.err_count + 1 ∧
    (∀ m2 : MCReplyBuilder, m2.noreply = true →
      (MCReplyBuilder.SendError msg ty oc m2).base.err_count = m2.base.err_count) := by
  refine ⟨?_, ?_, ?_⟩
  · simp [RedisReplyBuilder.SendError, SendRaw_err_count, lookupErr_incrErr]
  · simp [MCReplyBuilder.SendError, hm, SendRaw_err_count, lookupErr_incrErr]
  · intro m2 h2
    simp [MCReplyBuilder.SendError, h2]

/-- The original C7, refuted at a concrete input: on the Memcached builder
with `noreply` set, `SendError` leaves the error counter at the resolved
key unchanged instead of incrementing it. -/
theorem c7_counterexample :
    ¬ (lookupErr (resolveErrType "bad" "")
        (MCReplyBuilder.SendError "bad" "" none
          { base := initState, noreply := true }).base.err_count
      = lookupErr (resolveErrType "bad" "")
          ({ base := initState, noreply := true } : MCReplyBuilder).base.err_count + 1) := by
  decide

/-- A Memcached builder with `noreply` cleared on a fresh state. -/
def mcPlainBuilder : MCReplyBuilder := { base := initState, noreply := false }

/-- A Redis builder on a fresh state, RESP2. -/
def redisBuilder : RedisReplyBuilder := { base := initState, is_resp3 := false }

/-- Witness for the amended C7 at concrete builders and error arguments. -/
theorem c7_send_error_counts_witness :
    lookupErr (resolveErrType "bad" "WRONGTYPE")
        (RedisReplyBuilder.SendError "bad" "WRONGTYPE" none redisBuilder).base.err_count
      = lookupErr (resolveErrType "bad" "WRONGTYPE") redisBuilder.base.err_count + 1 ∧
    lookupErr (resolveErrType "bad" "WRONGTYPE")
        (MCReplyBuilder.SendError "bad" "WRONGTYPE" none mcPlainBuilder).base.err_count
      = lookupErr (resolveErrType "bad" "WRONGTYPE") mcPlainBuilder.base.err_count + 1 ∧
    (∀ m2 : MCReplyBuilder, m2.noreply = true →
      (MCReplyBuilder.SendError "bad" "WRONGTYPE" none m2).base.err_count
        = m2.base.err_count) :=
  c7_send_error_counts redisBuilder mcPlainBuilder "bad" "WRONGTYPE" none rfl

/-- Claim C8: once a sink write failure has set the builder's error state,
no core operation ever clears it back to the no-error state, and a raw
send in direct-write mode still issues its write attempt to the sink
rather than aborting. -/
theorem c8_error_persistence (s : BuilderState) (e : Nat) (h : s.ec = some e) :
    (∀ op : CoreOp, ∃ e2, GetError (runCoreOp op s) = some e2) ∧
    (∀ (msg : String) (oc : Option Nat),
      s.should_batch = false → s.should_aggregate = false →
      (SendRaw msg oc s).writes = s.writes ++ [⟨[msg], oc.isNone⟩]) := by
  constructor
  · have hSend : ∀ (v : List String) (oc : Option Nat), ∃ e2, (Send v oc s).ec = some e2 := by
      intro v oc
      cases oc with
      | none => exact ⟨e, h⟩
      | some e2 => exact ⟨e2, rfl⟩
    intro op
    cases op with
    | sendRaw msg oc =>
      simp only [runCoreOp, GetError, SendRaw]
      split
      · exact ⟨e, h⟩
      · exact hSend [msg] oc
    | sendRawVec msgs oc =>
      simp only [runCoreOp, GetError, SendRawVec]
      split
      · exact ⟨e, h⟩
      · exact hSend msgs oc
    | flushBatch oc =>
      simp only [runCoreOp, GetError, FlushBatch]
      split
      · exact ⟨e, h⟩
      · exact hSend [s.batch] oc
    | setBatchMode b => exact ⟨e, h⟩
    | startAggregate => exact ⟨e, h⟩
    | stopAggregate oc =>
      simp only [runCoreOp, GetError, StopAggregate, FlushBatch]
      split
      · exact ⟨e, h⟩
      · cases oc with
        | none => exact ⟨e, h⟩
        | some e2 => exact ⟨e2, rfl⟩
    | resetIoStats => exact ⟨e, h⟩
    | expectReply => exact ⟨e, h⟩
  · intro msg oc hb ha
    simp [SendRaw, hb, ha, Send]

/-- A fresh builder state carrying a recorded transport error. -/
def errState : BuilderState := { initState with ec := some 7 }

/-- Witness for C8 at a concrete errored state. -/
theorem c8_error_persistence_witness :
    (∀ op : CoreOp, ∃ e2, GetError (runCoreOp op errState) = some e2) ∧
    (∀ (msg : String) (oc : Option Nat),
      errState.should_batch = false → errState.should_aggregate = false →
      (SendRaw msg oc errState).writes = errState.writes ++ [⟨[msg], oc.isNone⟩]) :=
  c8_error_persistence errState 7 rfl

end Facade
